import Mathlib

/-!
# Verification of `scripts/gamepad.py` (remenic/gamepad-scripts)

A shallow embedding of the gamepad daemon: the `GamepadController` state, its
event handler (`handle_event`), the auxiliary-process toggle (`toggle_xboxdrv`),
the indicator functions, and the main event loop (`main_loop`).

Side effects (logging, running external commands, `os.system`, `os.killpg`,
`os.remove`, `time.sleep`, `sys.exit`) are modelled as an emitted list of
`Action` values.  Exceptions that escape a handler (a failed `subprocess.Popen`
raises `FileNotFoundError`, a subclass of `OSError`) are modelled with `Except`:
the `error` constructor carries the state and the actions emitted up to the
raise point, and propagates to the `except OSError` handler of the main loop.

External inputs the program reads (does the spawn succeed, the pid of the
spawned process, the output of `sudo fgconsole`, does `/tmp/notv` exist) are
collected in an `Env` record.  Wall-clock time (`time.time()`) is passed in as
a rational number, one `now` per loop iteration.
-/

namespace Gamepad

/-! ## Button and event-type codes (from `evdev.ecodes`) -/

def BTN_SOUTH : Nat := 304
def BTN_WEST : Nat := 308
def BTN_TL : Nat := 310
def BTN_TR : Nat := 311
def BTN_SELECT : Nat := 314
def BTN_START : Nat := 315
def BTN_MODE : Nat := 316

/-! ## The combo tables of `GamepadController` -/

def reset_combo : List Nat := [BTN_TL, BTN_TR, BTN_MODE]

def tty11_combo : List Nat := [BTN_MODE, BTN_SOUTH]

def mangohud_combo : List Nat := [BTN_MODE, BTN_WEST]

def xboxdrv_combo : List Nat := [BTN_MODE, BTN_START]

def makima_combo : List Nat := [BTN_MODE, BTN_SELECT]

/-! ## Events, actions, environment, state -/

/-- A raw input event, as branched on by `handle_event`: `EV_ABS` events carry
the axis value; `EV_KEY` events are split by `categorize` into key-down,
key-up and key-hold; any other event type is inert. -/
inductive GEvent where
  | keyDown (code : Nat)
  | keyUp (code : Nat)
  | keyHold (code : Nat)
  | axis (value : Int)
  | other
deriving DecidableEq, Repr

/-- An observable side effect of the program. -/
inductive Action where
  | log (msg : String)
  | runCmd (args : List String)
  | system (cmd : String)
  | killXboxdrv
  | removeFile (path : String)
  | sleep (secs : ℚ)
deriving DecidableEq, Repr

/-- External inputs read by the program during the loop. -/
structure Env where
  /-- does `subprocess.Popen` of the xboxdrv helper script succeed -/
  spawnOk : Bool
  /-- pid of the spawned process (only used in a log message) -/
  pid : Nat
  /-- parsed stdout of `sudo fgconsole` -/
  fgconsole : Nat
  /-- does `/tmp/notv` exist when `os.remove` is attempted -/
  notvExists : Bool
deriving DecidableEq, Repr

/-- The mutable fields of `GamepadController` (plus the immutable `mac` and
`is_bluetooth` set in `__init__`).  `xboxdrv_process = none` models a `None`
handle; `some b` models a held `Popen` handle whose `poll() is None` check
yields `b`. -/
structure GState where
  mac : String
  is_bluetooth : Bool
  pressed_buttons : Finset Nat
  last_timestamp : ℚ
  xboxdrv_process : Option Bool
deriving DecidableEq

/-- `__init__`: empty pressed set, no xboxdrv handle, transport from the
`bluetoothctl` probe, timestamp from `time.time()`. -/
def initial_state (mac : String) (bt : Bool) (t0 : ℚ) : GState :=
  { mac := mac, is_bluetooth := bt, pressed_buttons := ∅,
    last_timestamp := t0, xboxdrv_process := none }

/-- `set.issuperset(combo)`: every code of the combo list is in the set. -/
def issuperset (s : Finset Nat) (combo : List Nat) : Bool :=
  combo.all (fun c => decide (c ∈ s))

/-- Identifiers for the five combos registered in the class body. -/
inductive ComboID where
  | reset
  | tty11
  | mangohud
  | xboxdrv
  | makima
deriving DecidableEq, Repr

/-- The registered combos, in class-body registration order. -/
def registered_combos : List (ComboID × List Nat) :=
  [(ComboID.reset, reset_combo),
   (ComboID.tty11, tty11_combo),
   (ComboID.mangohud, mangohud_combo),
   (ComboID.xboxdrv, xboxdrv_combo),
   (ComboID.makima, makima_combo)]

/-- The combo that the `handle_event` if-chain fires for a given pressed set:
the chain tests exactly `reset_combo`, `tty11_combo`, `mangohud_combo` and
`xboxdrv_combo`, in that order. -/
def fired_combo (p : Finset Nat) : Option ComboID :=
  if issuperset p reset_combo then some ComboID.reset
  else if issuperset p tty11_combo then some ComboID.tty11
  else if issuperset p mangohud_combo then some ComboID.mangohud
  else if issuperset p xboxdrv_combo then some ComboID.xboxdrv
  else none

/-- Modelled from the claim's words (C1): the first of the five registered
combos, in priority order (reset, tty11, mangohud, xboxdrv, makima), whose
button set is a subset of the pressed set. -/
def claim_priority_match (p : Finset Nat) : Option ComboID :=
  (registered_combos.find? (fun x => issuperset p x.2)).map Prod.fst

/-! ## The side-effecting helpers of `GamepadController` -/

/-- `run`: log `Executing: ...` then run the command with `check=False`
(a non-zero exit status is discarded and raises nothing). -/
def run (args : List String) : List Action :=
  [Action.log ("Executing: " ++ String.intercalate " " args),
   Action.runCmd args]

/-- `disconnect_bluetooth`: no-op when wired, otherwise pipe a disconnect
command to `bluetoothctl` via `os.system`. -/
def disconnect_bluetooth (s : GState) : List Action :=
  if s.is_bluetooth then
    [Action.system ("echo disconnect " ++ s.mac.toUpper ++ " | bluetoothctl")]
  else []

/-- `remove_notv_file`: remove `/tmp/notv`; `FileNotFoundError` is caught and
logged as a no-op. -/
def remove_notv_file (env : Env) : List Action :=
  if env.notvExists then
    [Action.removeFile "/tmp/notv", Action.log "/tmp/notv has been removed."]
  else
    [Action.log "/tmp/notv does not exist. No action needed."]

/-- `restart_tty`: read `sudo fgconsole`; below tty 9 only log, otherwise
remove the marker file and restart the getty service. -/
def restart_tty (env : Env) : List Action :=
  [Action.log "Restarting TTY...", Action.runCmd ["sudo", "fgconsole"]] ++
  (if env.fgconsole < 9 then
    [Action.log ("Active TTY is " ++ toString env.fgconsole ++ ". Not restarting.")]
  else
    remove_notv_file env ++
    run ["/bin/sudo", "systemctl", "restart", "getty@tty" ++ toString env.fgconsole])

/-- `stop_gdm`. -/
def stop_gdm : List Action :=
  [Action.log "Stopping GDM..."] ++ run ["sudo", "systemctl", "stop", "gdm"]

/-- `enable_tty`. -/
def enable_tty (env : Env) (tty : Nat) : List Action :=
  [Action.log ("Switching to TTY " ++ toString tty)] ++
  stop_gdm ++
  remove_notv_file env ++
  run ["/bin/sudo", "chvt", toString tty] ++
  run ["/bin/sudo", "systemctl", "start", "getty@tty" ++ toString tty]

/-- `toggle_mangohud`. -/
def toggle_mangohud : List Action :=
  [Action.log "Toggling MangoHud"] ++ run ["/opt/scripts/mangohud-toggle"]

/-- `set_lightbar_state`: on, off, or blink. -/
def set_lightbar_state (s : GState) (st : String) : List Action :=
  run ["dualsensectl", "-d", s.mac, "lightbar", st]

/-- `determine_lightbar_color`: green while the xboxdrv handle exists and
`poll() is None`, blue otherwise. -/
def determine_lightbar_color (s : GState) : Nat × Nat × Nat :=
  if s.xboxdrv_process = some true then (0, 255, 0) else (0, 0, 255)

/-- `update_lightbar`: push the color determined by the xboxdrv state, with
intensity 50 when on Bluetooth, 255 when wired. -/
def update_lightbar (s : GState) : List Action :=
  let rgb := determine_lightbar_color s
  let i : Nat := if s.is_bluetooth then 50 else 255
  run ["dualsensectl", "-d", s.mac, "lightbar",
       toString rgb.1, toString rgb.2.1, toString rgb.2.2, toString i]

/-- `set_lightbar`: push an explicit color, with intensity 50 when on
Bluetooth, 255 when wired. -/
def set_lightbar (s : GState) (r g b : Nat) : List Action :=
  let i : Nat := if s.is_bluetooth then 50 else 255
  run ["dualsensectl", "-d", s.mac, "lightbar",
       toString r, toString g, toString b, toString i]

/-- `toggle_xboxdrv`: if a live handle exists, kill its process group and drop
the handle; otherwise spawn the helper script and record the handle.  A failed
spawn raises `FileNotFoundError` / `OSError` out of the method (the `error`
case), leaving the handle untouched; the lightbar update at the end of the
method is then never reached. -/
def toggle_xboxdrv (env : Env) (s : GState) :
    Except (GState × List Action) (GState × List Action) :=
  if s.xboxdrv_process = some true then
    let s2 := { s with xboxdrv_process := none }
    Except.ok (s2,
      [Action.log "Stopping xboxdrv...", Action.killXboxdrv,
       Action.log "xboxdrv stopped."] ++ update_lightbar s2)
  else
    if env.spawnOk then
      let s2 := { s with xboxdrv_process := some true }
      Except.ok (s2,
        [Action.log "Starting xboxdrv...",
         Action.log ("xboxdrv started with PID " ++ toString env.pid ++ ".")] ++
        update_lightbar s2)
    else
      Except.error (s, [Action.log "Starting xboxdrv..."])

/-- `handle_event`: axis events outside the 120–140 dead zone refresh the
activity timestamp; key events always refresh it; key-down adds the code to the
pressed set and walks the combo if-chain (clearing the pressed set and
dispatching on the first match); key-up discards the code. -/
def handle_event (env : Env) (now : ℚ) (s : GState) (e : GEvent) :
    Except (GState × List Action) (GState × List Action) :=
  match e with
  | GEvent.axis v =>
      if v < 120 ∨ v > 140 then
        Except.ok ({ s with last_timestamp := now }, [])
      else
        Except.ok (s, [])
  | GEvent.keyDown c =>
      let s1 := { s with last_timestamp := now,
                         pressed_buttons := insert c s.pressed_buttons }
      let pre : List Action := [Action.log ("button " ++ toString c ++ " pressed")]
      if issuperset s1.pressed_buttons reset_combo then
        Except.ok ({ s1 with pressed_buttons := ∅ },
          pre ++ [Action.log "reset combo pressed"] ++ restart_tty env)
      else if issuperset s1.pressed_buttons tty11_combo then
        Except.ok ({ s1 with pressed_buttons := ∅ },
          pre ++ [Action.log "tty11 combo pressed"] ++ enable_tty env 11)
      else if issuperset s1.pressed_buttons mangohud_combo then
        Except.ok ({ s1 with pressed_buttons := ∅ },
          pre ++ [Action.log "mangohud combo pressed"] ++ toggle_mangohud)
      else if issuperset s1.pressed_buttons xboxdrv_combo then
        match toggle_xboxdrv env { s1 with pressed_buttons := ∅ } with
        | Except.ok (s2, a2) =>
            Except.ok (s2, pre ++ [Action.log "xboxdrv combo pressed"] ++ a2)
        | Except.error (s2, a2) =>
            Except.error (s2, pre ++ [Action.log "xboxdrv combo pressed"] ++ a2)
      else
        Except.ok (s1, pre)
  | GEvent.keyUp c =>
      Except.ok ({ s with last_timestamp := now,
                          pressed_buttons := s.pressed_buttons.erase c },
        [Action.log ("button " ++ toString c ++ " released")])
  | GEvent.keyHold _ =>
      Except.ok ({ s with last_timestamp := now }, [])
  | GEvent.other =>
      Except.ok (s, [])

/-! ## The main event loop -/

/-- The per-iteration idle check at the top of the `read_loop` body: on
Bluetooth, with more than 300 seconds since the last activity, log, disconnect,
and reset the activity timestamp to now. -/
def idle_check (now : ℚ) (s : GState) : GState × List Action :=
  if s.is_bluetooth = true ∧ now - s.last_timestamp > 300 then
    ({ s with last_timestamp := now },
     [Action.log "Bluetooth controller is idle. Disconnecting."] ++
       disconnect_bluetooth s)
  else (s, [])

/-- One iteration of the `for event in device.read_loop()` body: the idle
check, then `handle_event` on the pulled event. -/
def loop_iteration (env : Env) (now : ℚ) (s : GState) (e : GEvent) :
    Except (GState × List Action) (GState × List Action) :=
  let p := idle_check now s
  match handle_event env now p.1 e with
  | Except.ok (s2, a2) => Except.ok (s2, p.2 ++ a2)
  | Except.error (s2, a2) => Except.error (s2, p.2 ++ a2)

/-- Replay of a finite prefix of the event stream through the loop body; an
uncaught `OSError` (failed spawn) aborts the replay and carries the state and
actions so far. -/
def run_events (env : Env) (s : GState) :
    List (ℚ × GEvent) → Except (GState × List Action) (GState × List Action)
  | [] => Except.ok (s, [])
  | (now, e) :: rest =>
    match loop_iteration env now s e with
    | Except.ok (s1, a1) =>
      match run_events env s1 rest with
      | Except.ok (s2, a2) => Except.ok (s2, a1 ++ a2)
      | Except.error (s2, a2) => Except.error (s2, a1 ++ a2)
    | Except.error (s1, a1) => Except.error (s1, a1)

/-- How the blocking read stream ends, when no exception escapes a handler
first: the generator is exhausted, the user interrupts, or the device read
raises `OSError`. -/
inductive StreamEnd where
  | endOfStream
  | interrupt
  | ioError
deriving DecidableEq, Repr

/-- Result of `main_loop`: final state, emitted actions, and `some c` when
`sys.exit(c)` was called (`none` means the method returned normally, after
which `main` returns and the interpreter exits with status 0). -/
structure LoopResult where
  finalState : GState
  actions : List Action
  exitCode : Option Nat
deriving DecidableEq

/-- The process exit status that a `LoopResult` leads to. -/
def exit_status (r : LoopResult) : Nat :=
  match r.exitCode with
  | some c => c
  | none => 0

/-- The banner logs and the startup lightbar sequence at the top of
`main_loop` (these run before the device is opened). -/
def startup_actions (s : GState) : List Action :=
  [Action.log ("Device    : /dev/gamepad-" ++ s.mac),
   Action.log ("MAC       : " ++ s.mac),
   Action.log ("Bluetooth : " ++ toString s.is_bluetooth)] ++
  (if s.is_bluetooth then
    [Action.sleep (1/2)] ++ set_lightbar_state s "off" ++
    [Action.sleep (1/2)] ++ set_lightbar s 0 0 255
  else
    set_lightbar s 0 0 255)

/-- The `except OSError` epilogue: if the xboxdrv handle is live, log, kill
the process group, and drop the handle. -/
def kill_if_alive (s : GState) : GState × List Action :=
  if s.xboxdrv_process = some true then
    ({ s with xboxdrv_process := none },
     [Action.log "Stopping xboxdrv...", Action.killXboxdrv])
  else (s, [])

/-- `main_loop`: banner and startup lightbar sequence; open the device
(`deviceOk = false` models `FileNotFoundError`, which logs and exits 1); then
the read loop over `evs`, ended by `ending` — end-of-stream and
`KeyboardInterrupt` fall out of the method normally, while an `OSError`
(from the device read, or propagated out of `handle_event` by a failed spawn)
reaps a live xboxdrv and calls `sys.exit(0)`. -/
def main_loop (env : Env) (deviceOk : Bool) (s : GState)
    (evs : List (ℚ × GEvent)) (ending : StreamEnd) : LoopResult :=
  let init := startup_actions s
  if deviceOk = false then
    { finalState := s,
      actions := init ++
        [Action.log ("Error: Device /dev/gamepad-" ++ s.mac ++ " not found!")],
      exitCode := some 1 }
  else
    match run_events env s evs with
    | Except.ok (s1, a1) =>
      match ending with
      | StreamEnd.endOfStream =>
        { finalState := s1, actions := init ++ a1, exitCode := none }
      | StreamEnd.interrupt =>
        { finalState := s1,
          actions := init ++ a1 ++
            [Action.log "Terminated by user (KeyboardInterrupt)."],
          exitCode := none }
      | StreamEnd.ioError =>
        let k := kill_if_alive s1
        { finalState := k.1,
          actions := init ++ a1 ++ [Action.log "Terminated by OSError."] ++ k.2,
          exitCode := some 0 }
    | Except.error (s1, a1) =>
      let k := kill_if_alive s1
      { finalState := k.1,
        actions := init ++ a1 ++ [Action.log "Terminated by OSError."] ++ k.2,
        exitCode := some 0 }

/-! ## Derived pressed-set dynamics -/

/-- The pressed-buttons component of one `handle_event` step: key-down inserts
the code and clears the whole set when the combo if-chain fires; key-up erases
the code; nothing else touches the set. -/
def step_pressed (p : Finset Nat) : GEvent → Finset Nat
  | GEvent.keyDown c =>
      let p2 := insert c p
      if (fired_combo p2).isSome then ∅ else p2
  | GEvent.keyUp c => p.erase c
  | _ => p

/-- Modelled from the claim's words (C2): one step of the reference automaton
for "the set of codes whose most recent event was a press not yet followed by
a release". -/
def held_step (p : Finset Nat) : GEvent → Finset Nat
  | GEvent.keyDown c => insert c p
  | GEvent.keyUp c => p.erase c
  | _ => p

/-- Modelled from the claim's words (C2): the set of codes pressed and not yet
released over a list of events. -/
def held_set (l : List GEvent) : Finset Nat := l.foldl held_step ∅

/-- The events processed since the most recent combo match, for a replay whose
pressed set currently is `p` and whose match-free suffix so far is `acc`. -/
def tail_since_fire : Finset Nat → List GEvent → List GEvent → List GEvent
  | _, acc, [] => acc
  | p, acc, e :: rest =>
    match e with
    | GEvent.keyDown c =>
      if (fired_combo (insert c p)).isSome then tail_since_fire ∅ [] rest
      else tail_since_fire (insert c p) (acc ++ [e]) rest
    | _ => tail_since_fire (step_pressed p e) (acc ++ [e]) rest

/-! ## Concrete instances used in counterexamples and witnesses -/

def env0 : Env := { spawnOk := true, pid := 7, fgconsole := 9, notvExists := false }

def envF : Env := { spawnOk := false, pid := 7, fgconsole := 9, notvExists := false }

def st0 : GState := initial_state "aa" false 0

def stBT : GState := initial_state "aa" true 0

def stAlive : GState :=
  { mac := "aa", is_bluetooth := false, pressed_buttons := ∅,
    last_timestamp := 0, xboxdrv_process := some true }

/-- The makima chord: press `BTN_MODE`, then `BTN_SELECT`. -/
def makima_events : List (ℚ × GEvent) :=
  [(1, GEvent.keyDown BTN_MODE), (2, GEvent.keyDown BTN_SELECT)]

/-- Press the reset chord (firing it on the third press), then one more
button. -/
def after_match_events : List (ℚ × GEvent) :=
  [(1, GEvent.keyDown BTN_TL), (2, GEvent.keyDown BTN_TR),
   (3, GEvent.keyDown BTN_MODE), (4, GEvent.keyDown BTN_SOUTH)]

/-- Press the xboxdrv chord (whose dispatch attempts the spawn), then one more
button. -/
def spawn_fail_events : List (ℚ × GEvent) :=
  [(1, GEvent.keyDown BTN_MODE), (2, GEvent.keyDown BTN_START),
   (3, GEvent.keyDown BTN_SOUTH)]

/-- Did a replay / handler call complete without an uncaught exception? -/
def isOk : Except (GState × List Action) (GState × List Action) → Bool
  | Except.ok _ => true
  | Except.error _ => false

/-- The state and actions carried by either outcome. -/
def exc_result :
    Except (GState × List Action) (GState × List Action) → GState × List Action
  | Except.ok x => x
  | Except.error x => x

/-! ## Helper lemmas -/

lemma toggle_xboxdrv_ok_fields {env : Env} {s s2 : GState} {a : List Action}
    (h : toggle_xboxdrv env s = Except.ok (s2, a)) :
    s2.pressed_buttons = s.pressed_buttons ∧ s2.last_timestamp = s.last_timestamp ∧
      s2.mac = s.mac ∧ s2.is_bluetooth = s.is_bluetooth := by
  unfold toggle_xboxdrv at h
  split at h
  · cases h; exact ⟨rfl, rfl, rfl, rfl⟩
  · split at h
    · cases h; exact ⟨rfl, rfl, rfl, rfl⟩
    · cases h

lemma toggle_xboxdrv_error_fields {env : Env} {s s2 : GState} {a : List Action}
    (h : toggle_xboxdrv env s = Except.error (s2, a)) :
    s2 = s ∧ env.spawnOk = false ∧ s.xboxdrv_process ≠ some true := by
  unfold toggle_xboxdrv at h
  split at h
  · cases h
  · rename_i hx
    split at h
    · cases h
    · rename_i hs
      cases h
      exact ⟨rfl, by simpa using hs, hx⟩

lemma handle_event_ok_pressed {env : Env} {now : ℚ} {s s2 : GState}
    {e : GEvent} {a : List Action}
    (h : handle_event env now s e = Except.ok (s2, a)) :
    s2.pressed_buttons = step_pressed s.pressed_buttons e := by
  cases e with
  | axis v =>
    by_cases hv : v < 120 ∨ v > 140
    · simp only [handle_event, if_pos hv] at h
      cases h; rfl
    · simp only [handle_event, if_neg hv] at h
      cases h; rfl
  | keyDown c =>
    by_cases h1 : issuperset (insert c s.pressed_buttons) reset_combo = true
    · simp only [handle_event, h1] at h
      simp only [step_pressed, fired_combo, h1]
      cases h; simp
    rw [Bool.not_eq_true] at h1
    by_cases h2 : issuperset (insert c s.pressed_buttons) tty11_combo = true
    · simp only [handle_event, h1, h2, Bool.false_eq_true, if_false] at h
      simp only [step_pressed, fired_combo, h1, h2, Bool.false_eq_true, if_false]
      cases h; simp
    rw [Bool.not_eq_true] at h2
    by_cases h3 : issuperset (insert c s.pressed_buttons) mangohud_combo = true
    · simp only [handle_event, h1, h2, h3, Bool.false_eq_true, if_false] at h
      simp only [step_pressed, fired_combo, h1, h2, h3, Bool.false_eq_true, if_false]
      cases h; simp
    rw [Bool.not_eq_true] at h3
    by_cases h4 : issuperset (insert c s.pressed_buttons) xboxdrv_combo = true
    · simp only [handle_event, h1, h2, h3, h4, Bool.false_eq_true, if_false] at h
      simp only [step_pressed, fired_combo, h1, h2, h3, h4, Bool.false_eq_true,
        if_false]
      cases hm : toggle_xboxdrv env
          { s with last_timestamp := now, pressed_buttons := (∅ : Finset Nat) } with
      | ok x =>
        rw [hm] at h
        obtain ⟨s3, a3⟩ := x
        cases h
        simpa using (toggle_xboxdrv_ok_fields hm).1
      | error x =>
        rw [hm] at h
        obtain ⟨s3, a3⟩ := x
        cases h
    rw [Bool.not_eq_true] at h4
    simp only [handle_event, h1, h2, h3, h4, Bool.false_eq_true, if_false] at h
    simp only [step_pressed, fired_combo, h1, h2, h3, h4, Bool.false_eq_true,
      if_false]
    cases h; simp
  | keyUp c =>
    simp only [handle_event] at h
    cases h; rfl
  | keyHold c =>
    simp only [handle_event] at h
    cases h; rfl
  | other =>
    simp only [handle_event] at h
    cases h; rfl

lemma idle_check_fields (now : ℚ) (s : GState) :
    (idle_check now s).1.pressed_buttons = s.pressed_buttons ∧
      (idle_check now s).1.xboxdrv_process = s.xboxdrv_process ∧
      (idle_check now s).1.mac = s.mac ∧
      (idle_check now s).1.is_bluetooth = s.is_bluetooth := by
  unfold idle_check
  split <;> exact ⟨rfl, rfl, rfl, rfl⟩

lemma loop_iteration_ok_pressed {env : Env} {now : ℚ} {s s2 : GState}
    {e : GEvent} {a : List Action}
    (h : loop_iteration env now s e = Except.ok (s2, a)) :
    s2.pressed_buttons = step_pressed s.pressed_buttons e := by
  simp only [loop_iteration] at h
  cases hm : handle_event env now (idle_check now s).1 e with
  | ok x =>
    obtain ⟨s3, a3⟩ := x
    rw [hm] at h
    cases h
    rw [handle_event_ok_pressed hm, (idle_check_fields now s).1]
  | error x =>
    obtain ⟨s3, a3⟩ := x
    rw [hm] at h
    cases h

lemma run_events_ok_pressed {env : Env} {s s2 : GState}
    {evs : List (ℚ × GEvent)} {a : List Action}
    (h : run_events env s evs = Except.ok (s2, a)) :
    s2.pressed_buttons
      = List.foldl step_pressed s.pressed_buttons (evs.map Prod.snd) := by
  induction evs generalizing s a with
  | nil =>
    unfold run_events at h
    cases h; rfl
  | cons hd tl ih =>
    unfold run_events at h
    split at h
    · rename_i s1 a1 h1
      split at h
      · rename_i s3 a3 h3
        cases h
        simpa [loop_iteration_ok_pressed h1] using ih h3
      · cases h
    · cases h

lemma held_set_append (acc : List GEvent) (e : GEvent) :
    held_set (acc ++ [e]) = held_step (held_set acc) e := by
  simp [held_set, List.foldl_append]

lemma foldl_step_pressed_tail (l : List GEvent) :
    ∀ p acc, p = held_set acc →
      List.foldl step_pressed p l = held_set (tail_since_fire p acc l) := by
  induction l with
  | nil =>
    intro p acc hp
    simpa [tail_since_fire] using hp
  | cons e rest ih =>
    intro p acc hp
    cases e with
    | keyDown c =>
      by_cases hf : (fired_combo (insert c p)).isSome
      · have h1 : step_pressed p (GEvent.keyDown c) = ∅ := by
          simp [step_pressed, hf]
        have h2 : tail_since_fire p acc (GEvent.keyDown c :: rest)
            = tail_since_fire ∅ [] rest := by
          simp [tail_since_fire, hf]
        rw [List.foldl_cons, h1, h2]
        exact ih ∅ [] (by simp [held_set])
      · have h1 : step_pressed p (GEvent.keyDown c) = insert c p := by
          simp [step_pressed, hf]
        have h2 : tail_since_fire p acc (GEvent.keyDown c :: rest)
            = tail_since_fire (insert c p) (acc ++ [GEvent.keyDown c]) rest := by
          simp [tail_since_fire, hf]
        rw [List.foldl_cons, h1, h2]
        exact ih (insert c p) (acc ++ [GEvent.keyDown c])
          (by rw [held_set_append, ← hp]; rfl)
    | keyUp c =>
      rw [List.foldl_cons]
      have h2 : tail_since_fire p acc (GEvent.keyUp c :: rest)
          = tail_since_fire (step_pressed p (GEvent.keyUp c))
              (acc ++ [GEvent.keyUp c]) rest := by
        simp [tail_since_fire]
      rw [h2]
      exact ih _ _ (by rw [held_set_append, ← hp]; rfl)
    | keyHold c =>
      rw [List.foldl_cons]
      have h2 : tail_since_fire p acc (GEvent.keyHold c :: rest)
          = tail_since_fire (step_pressed p (GEvent.keyHold c))
              (acc ++ [GEvent.keyHold c]) rest := by
        simp [tail_since_fire]
      rw [h2]
      exact ih _ _ (by rw [held_set_append, ← hp]; rfl)
    | axis v =>
      rw [List.foldl_cons]
      have h2 : tail_since_fire p acc (GEvent.axis v :: rest)
          = tail_since_fire (step_pressed p (GEvent.axis v))
              (acc ++ [GEvent.axis v]) rest := by
        simp [tail_since_fire]
      rw [h2]
      exact ih _ _ (by rw [held_set_append, ← hp]; rfl)
    | other =>
      rw [List.foldl_cons]
      have h2 : tail_since_fire p acc (GEvent.other :: rest)
          = tail_since_fire (step_pressed p GEvent.other)
              (acc ++ [GEvent.other]) rest := by
        simp [tail_since_fire]
      rw [h2]
      exact ih _ _ (by rw [held_set_append, ← hp]; rfl)

lemma toggle_xboxdrv_ok_of_spawnOk {env : Env} (s : GState)
    (hs : env.spawnOk = true) :
    ∃ s3 a3, toggle_xboxdrv env s = Except.ok (s3, a3) := by
  by_cases hx : s.xboxdrv_process = some true
  · refine ⟨{ s with xboxdrv_process := none },
      [Action.log "Stopping xboxdrv...", Action.killXboxdrv,
       Action.log "xboxdrv stopped."] ++
        update_lightbar { s with xboxdrv_process := none }, ?_⟩
    simp [toggle_xboxdrv, hx]
  · refine ⟨{ s with xboxdrv_process := some true },
      [Action.log "Starting xboxdrv...",
       Action.log ("xboxdrv started with PID " ++ toString env.pid ++ ".")] ++
        update_lightbar { s with xboxdrv_process := some true }, ?_⟩
    simp [toggle_xboxdrv, hx, hs]

lemma handle_event_ok_of_spawnOk {env : Env} (hs : env.spawnOk = true)
    (now : ℚ) (s : GState) (e : GEvent) :
    ∃ s2 a, handle_event env now s e = Except.ok (s2, a) := by
  cases e with
  | axis v =>
    by_cases hv : v < 120 ∨ v > 140
    · exact ⟨{ s with last_timestamp := now }, [], by simp [handle_event, hv]⟩
    · exact ⟨s, [], by simp [handle_event, hv]⟩
  | keyDown c =>
    by_cases h1 : issuperset (insert c s.pressed_buttons) reset_combo = true
    · exact ⟨{ s with last_timestamp := now, pressed_buttons := ∅ },
        [Action.log ("button " ++ toString c ++ " pressed")] ++
          [Action.log "reset combo pressed"] ++ restart_tty env,
        by simp [handle_event, h1]⟩
    rw [Bool.not_eq_true] at h1
    by_cases h2 : issuperset (insert c s.pressed_buttons) tty11_combo = true
    · exact ⟨{ s with last_timestamp := now, pressed_buttons := ∅ },
        [Action.log ("button " ++ toString c ++ " pressed")] ++
          [Action.log "tty11 combo pressed"] ++ enable_tty env 11,
        by simp [handle_event, h1, h2]⟩
    rw [Bool.not_eq_true] at h2
    by_cases h3 : issuperset (insert c s.pressed_buttons) mangohud_combo = true
    · exact ⟨{ s with last_timestamp := now, pressed_buttons := ∅ },
        [Action.log ("button " ++ toString c ++ " pressed")] ++
          [Action.log "mangohud combo pressed"] ++ toggle_mangohud,
        by simp [handle_event, h1, h2, h3]⟩
    rw [Bool.not_eq_true] at h3
    by_cases h4 : issuperset (insert c s.pressed_buttons) xboxdrv_combo = true
    · obtain ⟨s3, a3, ht⟩ := toggle_xboxdrv_ok_of_spawnOk
        { s with last_timestamp := now, pressed_buttons := (∅ : Finset Nat) } hs
      refine ⟨s3, [Action.log ("button " ++ toString c ++ " pressed")] ++
        [Action.log "xboxdrv combo pressed"] ++ a3, ?_⟩
      simp only [handle_event, h1, h2, h3, h4, Bool.false_eq_true, if_false,
        if_true]
      rw [ht]
    rw [Bool.not_eq_true] at h4
    exact ⟨{ s with
               last_timestamp := now,
               pressed_buttons := insert c s.pressed_buttons },
      [Action.log ("button " ++ toString c ++ " pressed")],
      by simp [handle_event, h1, h2, h3, h4]⟩
  | keyUp c =>
    exact ⟨{ s with
               last_timestamp := now,
               pressed_buttons := s.pressed_buttons.erase c },
      [Action.log ("button " ++ toString c ++ " released")], rfl⟩
  | keyHold c => exact ⟨{ s with last_timestamp := now }, [], rfl⟩
  | other => exact ⟨s, [], rfl⟩

lemma loop_iteration_ok_of_spawnOk {env : Env} (hs : env.spawnOk = true)
    (now : ℚ) (s : GState) (e : GEvent) :
    ∃ s2 a, loop_iteration env now s e = Except.ok (s2, a) := by
  obtain ⟨s2, a, h⟩ := handle_event_ok_of_spawnOk hs now (idle_check now s).1 e
  exact ⟨s2, (idle_check now s).2 ++ a, by simp [loop_iteration, h]⟩

lemma run_events_ok_of_spawnOk {env : Env} (hs : env.spawnOk = true)
    (s : GState) (evs : List (ℚ × GEvent)) :
    ∃ s2 a, run_events env s evs = Except.ok (s2, a) := by
  induction evs generalizing s with
  | nil => exact ⟨s, [], rfl⟩
  | cons hd tl ih =>
    obtain ⟨now, e⟩ := hd
    obtain ⟨s1, a1, h1⟩ := loop_iteration_ok_of_spawnOk hs now s e
    obtain ⟨s2, a2, h2⟩ := ih s1
    exact ⟨s2, a1 ++ a2, by simp [run_events, h1, h2]⟩

lemma fired_combo_eq_take_four (p : Finset Nat) :
    fired_combo p
      = ((registered_combos.take 4).find?
          (fun x => issuperset p x.2)).map Prod.fst := by
  by_cases h1 : issuperset p reset_combo = true <;>
    by_cases h2 : issuperset p tty11_combo = true <;>
      by_cases h3 : issuperset p mangohud_combo = true <;>
        by_cases h4 : issuperset p xboxdrv_combo = true <;>
          simp [fired_combo, registered_combos, List.find?, h1, h2, h3, h4]

lemma fired_combo_ne_makima (q : Finset Nat) :
    fired_combo q ≠ some ComboID.makima := by
  unfold fired_combo
  split_ifs <;> simp

lemma killXboxdrv_not_mem_startup (s : GState) :
    Action.killXboxdrv ∉ startup_actions s := by
  by_cases hbt : s.is_bluetooth = true <;>
    simp [startup_actions, set_lightbar, set_lightbar_state, run, hbt]

/-! ## Claim theorems -/

/-- C6: at the per-event idle check, the disconnect is signaled exactly when
the transport is wireless and `now - last_timestamp` is strictly greater than
300 seconds; when it fires, the activity timestamp is reset to `now` and the
`bluetoothctl` disconnect command is emitted; for a wired device the check
never signals; in particular, at 299 seconds of elapsed inactivity nothing is
signaled, while at 301 seconds the disconnect fires. -/
theorem C6_idle_threshold (s : GState) (now : ℚ) :
    ((idle_check now s).2 ≠ []
        ↔ (s.is_bluetooth = true ∧ now - s.last_timestamp > 300)) ∧
    ((idle_check now s).2 ≠ [] →
      (idle_check now s).1.last_timestamp = now ∧
        Action.system ("echo disconnect " ++ s.mac.toUpper ++ " | bluetoothctl")
          ∈ (idle_check now s).2) ∧
    (s.is_bluetooth = false → idle_check now s = (s, [])) ∧
    (s.is_bluetooth = true → (idle_check (s.last_timestamp + 299) s).2 = []) ∧
    (s.is_bluetooth = true → (idle_check (s.last_timestamp + 301) s).2 ≠ []) := by
  have hkey : ∀ t : ℚ, s.last_timestamp + t - s.last_timestamp = t := by
    intro t; ring
  refine ⟨?_, ?_, ?_, ?_, ?_⟩
  · by_cases hc : s.is_bluetooth = true ∧ now - s.last_timestamp > 300
    · simp [idle_check, disconnect_bluetooth, hc.1, hc.2]
    · simp [idle_check, hc]
  · intro hne
    by_cases hc : s.is_bluetooth = true ∧ now - s.last_timestamp > 300
    · constructor
      · simp [idle_check, hc.1, hc.2]
      · simp [idle_check, disconnect_bluetooth, hc.1, hc.2]
    · exfalso
      apply hne
      simp [idle_check, hc]
  · intro hw
    simp [idle_check, hw]
  · intro hbt
    have h299 : ¬((299 : ℚ) > 300) := by norm_num
    simp [idle_check, hkey, h299]
  · intro hbt
    have h301 : (301 : ℚ) > 300 := by norm_num
    simp [idle_check, hkey, hbt, h301, disconnect_bluetooth]

/-- C6 witness: on the wireless initial state, an event arriving 301 seconds
after the last activity signals the disconnect. -/
theorem C6_witness : (idle_check (stBT.last_timestamp + 301) stBT).2 ≠ [] :=
  (C6_idle_threshold stBT 0).2.2.2.2 rfl

/-- C7: an axis event refreshes the activity timestamp exactly when its value
is outside the 120–140 dead zone (value < 120 or value > 140); it never
modifies the pressed-button set, never dispatches any action (so it never
triggers a combo), and never touches the auxiliary-process handle. -/
theorem C7_axis_dead_zone (env : Env) (now : ℚ) (s : GState) (v : Int) :
    ∃ s2 : GState,
      handle_event env now s (GEvent.axis v) = Except.ok (s2, []) ∧
        s2.pressed_buttons = s.pressed_buttons ∧
        s2.last_timestamp
          = (if v < 120 ∨ v > 140 then now else s.last_timestamp) ∧
        s2.xboxdrv_process = s.xboxdrv_process := by
  by_cases hv : v < 120 ∨ v > 140
  · exact ⟨{ s with last_timestamp := now },
      by simp [handle_event, hv], rfl, by simp [hv], rfl⟩
  · exact ⟨s, by simp [handle_event, hv], rfl, by simp [hv], rfl⟩

/-- C9: every `set_lightbar` call uses intensity "50" when the transport is
Bluetooth and "255" when wired; `update_lightbar` pushes green (0,255,0) when
the xboxdrv process is alive and blue (0,0,255) otherwise, with the same
intensity policy; and every completed `toggle_xboxdrv` ends by pushing the
lightbar update recomputed for the post-toggle state. -/
theorem C9_lightbar_policy (env : Env) (s : GState) (r g b : Nat) :
    (set_lightbar s r g b
      = run ["dualsensectl", "-d", s.mac, "lightbar", toString r, toString g,
             toString b, if s.is_bluetooth then "50" else "255"]) ∧
    (s.xboxdrv_process = some true →
      update_lightbar s
        = run ["dualsensectl", "-d", s.mac, "lightbar", "0", "255", "0",
               if s.is_bluetooth then "50" else "255"]) ∧
    (s.xboxdrv_process ≠ some true →
      update_lightbar s
        = run ["dualsensectl", "-d", s.mac, "lightbar", "0", "0", "255",
               if s.is_bluetooth then "50" else "255"]) ∧
    (∀ s2 a, toggle_xboxdrv env s = Except.ok (s2, a) →
      ∃ pre, a = pre ++ update_lightbar s2) := by
  have h50 : toString (50 : Nat) = "50" := rfl
  have h255 : toString (255 : Nat) = "255" := rfl
  have h0 : toString (0 : Nat) = "0" := rfl
  refine ⟨?_, ?_, ?_, ?_⟩
  · by_cases hbt : s.is_bluetooth = true <;>
      simp [set_lightbar, hbt, h50, h255]
  · intro hx
    by_cases hbt : s.is_bluetooth = true <;>
      simp [update_lightbar, determine_lightbar_color, hx, hbt, h0, h50, h255]
  · intro hx
    by_cases hbt : s.is_bluetooth = true <;>
      simp [update_lightbar, determine_lightbar_color, hx, hbt, h0, h50, h255]
  · intro s2 a ht
    by_cases hx : s.xboxdrv_process = some true
    · simp [toggle_xboxdrv, hx] at ht
      refine ⟨[Action.log "Stopping xboxdrv...", Action.killXboxdrv,
        Action.log "xboxdrv stopped."], ?_⟩
      rw [← ht.1, ← ht.2]
      rfl
    · by_cases hsp : env.spawnOk = true
      · simp [toggle_xboxdrv, hx, hsp] at ht
        refine ⟨[Action.log "Starting xboxdrv...",
          Action.log ("xboxdrv started with PID " ++ toString env.pid ++ ".")], ?_⟩
        rw [← ht.1, ← ht.2]
        rfl
      · rw [Bool.not_eq_true] at hsp
        simp [toggle_xboxdrv, hx, hsp] at ht

/-- C9 witness: with xboxdrv alive on a wired device, the recomputed lightbar
push is green at full intensity. -/
theorem C9_witness :
    update_lightbar stAlive
      = run ["dualsensectl", "-d", stAlive.mac, "lightbar", "0", "255", "0",
             if stAlive.is_bluetooth then "50" else "255"] :=
  (C9_lightbar_policy env0 stAlive 0 0 255).2.1 rfl

/-- C10: in a loop iteration on a wireless device idle for more than 300
seconds, the disconnect fires first — the idle log and the `bluetoothctl`
command precede the pulled event's own actions — and the event is then handled
as ordinary input from the timestamp-reset state. -/
theorem C10_idle_before_event (env : Env) (now : ℚ) (s : GState) (e : GEvent)
    (hbt : s.is_bluetooth = true) (hidle : now - s.last_timestamp > 300)
    (s2 : GState) (a2 : List Action)
    (h : handle_event env now { s with last_timestamp := now } e
          = Except.ok (s2, a2)) :
    loop_iteration env now s e
      = Except.ok (s2,
          [Action.log "Bluetooth controller is idle. Disconnecting.",
           Action.system ("echo disconnect " ++ s.mac.toUpper ++ " | bluetoothctl")]
            ++ a2) := by
  have hic : idle_check now s
      = ({ s with last_timestamp := now },
         [Action.log "Bluetooth controller is idle. Disconnecting.",
          Action.system ("echo disconnect " ++ s.mac.toUpper ++ " | bluetoothctl")]) := by
    simp [idle_check, disconnect_bluetooth, hbt, hidle]
  simp only [loop_iteration, hic, h]

/-- C10 witness: a (combo-free) event pulled 301 seconds into wireless
inactivity triggers the disconnect first and is then handled normally. -/
theorem C10_witness :
    loop_iteration env0 301 stBT GEvent.other
      = Except.ok ({ stBT with last_timestamp := 301 },
          [Action.log "Bluetooth controller is idle. Disconnecting.",
           Action.system ("echo disconnect " ++ stBT.mac.toUpper ++ " | bluetoothctl")]
            ++ []) :=
  C10_idle_before_event env0 301 stBT GEvent.other rfl
    (by norm_num [stBT, initial_state])
    { stBT with last_timestamp := 301 } [] rfl

/-- C8: with a successful spawn, `toggle_xboxdrv` alternates the alive state:
a live handle is process-group-killed and set to `None`, otherwise a fresh
process is started and recorded as the handle; immediately after any toggle
the handle is `None` exactly when no process is running, and at most one
process is recorded. -/
theorem C8_toggle_alternates (env : Env) (s : GState)
    (hs : env.spawnOk = true) :
    ∃ s2 a, toggle_xboxdrv env s = Except.ok (s2, a) ∧
      (s.xboxdrv_process = some true →
        s2.xboxdrv_process = none ∧ Action.killXboxdrv ∈ a) ∧
      (s.xboxdrv_process ≠ some true → s2.xboxdrv_process = some true) ∧
      ((s2.xboxdrv_process = some true) ↔ ¬(s.xboxdrv_process = some true)) ∧
      (s2.xboxdrv_process = none ↔ ¬(s2.xboxdrv_process = some true)) := by
  by_cases hx : s.xboxdrv_process = some true
  · refine ⟨{ s with xboxdrv_process := none },
      [Action.log "Stopping xboxdrv...", Action.killXboxdrv,
       Action.log "xboxdrv stopped."] ++
        update_lightbar { s with xboxdrv_process := none },
      by simp [toggle_xboxdrv, hx], ?_, ?_, ?_, ?_⟩
    · intro _
      exact ⟨rfl, by simp⟩
    · intro hn
      exact absurd hx hn
    · simp [hx]
    · simp
  · refine ⟨{ s with xboxdrv_process := some true },
      [Action.log "Starting xboxdrv...",
       Action.log ("xboxdrv started with PID " ++ toString env.pid ++ ".")] ++
        update_lightbar { s with xboxdrv_process := some true },
      by simp [toggle_xboxdrv, hx, hs], ?_, ?_, ?_, ?_⟩
    · intro hc
      exact absurd hc hx
    · intro _
      rfl
    · simp [hx]
    · simp

/-- C8 witness: toggling with a live handle kills it; the returned state and
action list witness every conjunct at a concrete alive state. -/
theorem C8_witness :
    ∃ s2 a, toggle_xboxdrv env0 stAlive = Except.ok (s2, a) ∧
      (stAlive.xboxdrv_process = some true →
        s2.xboxdrv_process = none ∧ Action.killXboxdrv ∈ a) ∧
      (stAlive.xboxdrv_process ≠ some true → s2.xboxdrv_process = some true) ∧
      ((s2.xboxdrv_process = some true) ↔ ¬(stAlive.xboxdrv_process = some true)) ∧
      (s2.xboxdrv_process = none ↔ ¬(s2.xboxdrv_process = some true)) :=
  C8_toggle_alternates env0 stAlive rfl

/-- C1 counterexample: pressing `BTN_MODE` then `BTN_SELECT` makes the pressed
set a superset of the registered `makima_combo`, so the claimed five-combo
priority match reports makima as the unique match, requiring the pressed set
to be cleared and an action dispatched — but the handler's if-chain never
tests the makima combo: the replay fires nothing, emits only the two
per-button logs, and leaves the pressed set uncleared. -/
theorem C1_counterexample :
    claim_priority_match (insert BTN_SELECT (insert BTN_MODE ∅))
      = some ComboID.makima ∧
    fired_combo (insert BTN_SELECT (insert BTN_MODE ∅)) = none ∧
    isOk (run_events env0 st0 makima_events) = true ∧
    (exc_result (run_events env0 st0 makima_events)).1.pressed_buttons
      = insert BTN_SELECT (insert BTN_MODE ∅) ∧
    (exc_result (run_events env0 st0 makima_events)).2
      = [Action.log "button 316 pressed", Action.log "button 314 pressed"] ∧
    insert BTN_SELECT (insert BTN_MODE (∅ : Finset Nat)) ≠ ∅ := by
  refine ⟨by decide, by decide, by decide, by decide, by decide, by decide⟩

/-- C1 (amended): on a button-down the code is added to the pressed set and
the activity timestamp is refreshed; the handler then tests the pressed set
against the first four registered combos (reset, tty11, mangohud, xboxdrv), in
registration order — the fired combo is the first of those four whose button
set is contained in the pressed set, and the makima combo, though registered,
is never tested and never fires; on a match the pressed set is cleared
entirely and that combo's action is dispatched; with no match only the button
log is emitted and the pressed set keeps the new code. -/
theorem C1_amended_match (env : Env) (now : ℚ) (s : GState) (c : Nat)
    (hs : env.spawnOk = true) :
    fired_combo (insert c s.pressed_buttons)
      = ((registered_combos.take 4).find?
          (fun x => issuperset (insert c s.pressed_buttons) x.2)).map Prod.fst ∧
    (∀ q : Finset Nat, fired_combo q ≠ some ComboID.makima) ∧
    ∃ s2 a, handle_event env now s (GEvent.keyDown c) = Except.ok (s2, a) ∧
      s2.last_timestamp = now ∧
      s2.pressed_buttons
        = (if (fired_combo (insert c s.pressed_buttons)).isSome then ∅
           else insert c s.pressed_buttons) ∧
      (fired_combo (insert c s.pressed_buttons) = none →
        a = [Action.log ("button " ++ toString c ++ " pressed")]) ∧
      (fired_combo (insert c s.pressed_buttons) = some ComboID.reset →
        a = [Action.log ("button " ++ toString c ++ " pressed"),
             Action.log "reset combo pressed"] ++ restart_tty env) ∧
      (fired_combo (insert c s.pressed_buttons) = some ComboID.tty11 →
        a = [Action.log ("button " ++ toString c ++ " pressed"),
             Action.log "tty11 combo pressed"] ++ enable_tty env 11) ∧
      (fired_combo (insert c s.pressed_buttons) = some ComboID.mangohud →
        a = [Action.log ("button " ++ toString c ++ " pressed"),
             Action.log "mangohud combo pressed"] ++ toggle_mangohud) ∧
      (fired_combo (insert c s.pressed_buttons) = some ComboID.xboxdrv →
        ∃ a2, toggle_xboxdrv env
            { s with last_timestamp := now, pressed_buttons := ∅ }
          = Except.ok (s2, a2) ∧
          a = [Action.log ("button " ++ toString c ++ " pressed"),
               Action.log "xboxdrv combo pressed"] ++ a2) := by
  refine ⟨fired_combo_eq_take_four _, fired_combo_ne_makima, ?_⟩
  by_cases h1 : issuperset (insert c s.pressed_buttons) reset_combo = true
  · have hf : fired_combo (insert c s.pressed_buttons) = some ComboID.reset := by
      simp [fired_combo, h1]
    exact ⟨{ s with last_timestamp := now, pressed_buttons := ∅ },
      [Action.log ("button " ++ toString c ++ " pressed"),
       Action.log "reset combo pressed"] ++ restart_tty env,
      by simp [handle_event, h1], rfl, by simp [hf], by simp [hf], by simp [hf],
      by simp [hf], by simp [hf], by simp [hf]⟩
  rw [Bool.not_eq_true] at h1
  by_cases h2 : issuperset (insert c s.pressed_buttons) tty11_combo = true
  · have hf : fired_combo (insert c s.pressed_buttons) = some ComboID.tty11 := by
      simp [fired_combo, h1, h2]
    exact ⟨{ s with last_timestamp := now, pressed_buttons := ∅ },
      [Action.log ("button " ++ toString c ++ " pressed"),
       Action.log "tty11 combo pressed"] ++ enable_tty env 11,
      by simp [handle_event, h1, h2], rfl, by simp [hf], by simp [hf],
      by simp [hf], by simp [hf], by simp [hf], by simp [hf]⟩
  rw [Bool.not_eq_true] at h2
  by_cases h3 : issuperset (insert c s.pressed_buttons) mangohud_combo = true
  · have hf : fired_combo (insert c s.pressed_buttons)
        = some ComboID.mangohud := by
      simp [fired_combo, h1, h2, h3]
    exact ⟨{ s with last_timestamp := now, pressed_buttons := ∅ },
      [Action.log ("button " ++ toString c ++ " pressed"),
       Action.log "mangohud combo pressed"] ++ toggle_mangohud,
      by simp [handle_event, h1, h2, h3], rfl, by simp [hf], by simp [hf],
      by simp [hf], by simp [hf], by simp [hf], by simp [hf]⟩
  rw [Bool.not_eq_true] at h3
  by_cases h4 : issuperset (insert c s.pressed_buttons) xboxdrv_combo = true
  · have hf : fired_combo (insert c s.pressed_buttons)
        = some ComboID.xboxdrv := by
      simp [fired_combo, h1, h2, h3, h4]
    obtain ⟨s3, a3, ht⟩ := toggle_xboxdrv_ok_of_spawnOk
      { s with last_timestamp := now, pressed_buttons := (∅ : Finset Nat) } hs
    refine ⟨s3,
      [Action.log ("button " ++ toString c ++ " pressed"),
       Action.log "xboxdrv combo pressed"] ++ a3, ?_, ?_, ?_, ?_, ?_, ?_, ?_, ?_⟩
    · simp only [handle_event, h1, h2, h3, h4, Bool.false_eq_true, if_false,
        if_true]
      rw [ht]
      rfl
    · simpa using (toggle_xboxdrv_ok_fields ht).2.1
    · simp [hf, (toggle_xboxdrv_ok_fields ht).1]
    · simp [hf]
    · simp [hf]
    · simp [hf]
    · simp [hf]
    · intro _
      exact ⟨a3, ht, rfl⟩
  rw [Bool.not_eq_true] at h4
  have hf : fired_combo (insert c s.pressed_buttons) = none := by
    simp [fired_combo, h1, h2, h3, h4]
  exact ⟨{ s with
             last_timestamp := now,
             pressed_buttons := insert c s.pressed_buttons },
    [Action.log ("button " ++ toString c ++ " pressed")],
    by simp [handle_event, h1, h2, h3, h4], rfl, by simp [hf], by simp [hf],
    by simp [hf], by simp [hf], by simp [hf], by simp [hf]⟩

/-- C1 witness: the if-chain's result agrees with the first-match search over
the four tested combos at a concrete press. -/
theorem C1_witness :
    fired_combo (insert BTN_SOUTH st0.pressed_buttons)
      = ((registered_combos.take 4).find?
          (fun x => issuperset (insert BTN_SOUTH st0.pressed_buttons) x.2)).map
          Prod.fst :=
  (C1_amended_match env0 5 st0 BTN_SOUTH rfl).1

/-- The state reached by replaying the makima chord from the initial wired
state (used as a concrete completed replay). -/
def st_after_makima : GState :=
  { mac := "aa", is_bluetooth := false,
    pressed_buttons := insert BTN_SELECT (insert BTN_MODE ∅),
    last_timestamp := 2, xboxdrv_process := none }

/-- C2 counterexample: pressing TL, TR, MODE fires the reset combo (clearing
the pressed set), and a following SOUTH press leaves only SOUTH pressed; the
whole-sequence pressed-and-not-yet-released set still holds all four codes,
and the final event matched no combo — so the claimed equality fails. -/
theorem C2_counterexample :
    isOk (run_events env0 st0 after_match_events) = true ∧
    (exc_result (run_events env0 st0 after_match_events)).1.pressed_buttons
      = ({BTN_SOUTH} : Finset Nat) ∧
    held_set (after_match_events.map Prod.snd)
      = insert BTN_TL (insert BTN_TR (insert BTN_MODE {BTN_SOUTH})) ∧
    fired_combo (insert BTN_SOUTH ∅) = none ∧
    claim_priority_match (insert BTN_SOUTH ∅) = none ∧
    ({BTN_SOUTH} : Finset Nat)
      ≠ insert BTN_TL (insert BTN_TR (insert BTN_MODE {BTN_SOUTH})) := by
  refine ⟨by decide, by decide, by decide, by decide, by decide, by decide⟩

/-- C2 (amended): after any completed replay from an empty pressed set, the
pressed set equals the pressed-and-not-yet-released set of the events
processed since the most recent combo match (hence it is empty immediately
after a match); a button-up erases exactly its own code (a no-op when absent)
and never fires a combo; an axis event never modifies the pressed set and
never fires a combo. -/
theorem C2_amended_replay (env : Env) (s0 s1 : GState)
    (evs : List (ℚ × GEvent)) (acts : List Action)
    (h0 : s0.pressed_buttons = ∅)
    (h : run_events env s0 evs = Except.ok (s1, acts)) :
    s1.pressed_buttons = held_set (tail_since_fire ∅ [] (evs.map Prod.snd)) ∧
    (∀ (now : ℚ) (s : GState) (c : Nat),
      handle_event env now s (GEvent.keyUp c)
        = Except.ok ({ s with
                         last_timestamp := now,
                         pressed_buttons := s.pressed_buttons.erase c },
            [Action.log ("button " ++ toString c ++ " released")])) ∧
    (∀ (s : GState) (c : Nat), c ∉ s.pressed_buttons →
      s.pressed_buttons.erase c = s.pressed_buttons) ∧
    (∀ (now : ℚ) (s : GState) (v : Int),
      ∃ s2 : GState,
        handle_event env now s (GEvent.axis v) = Except.ok (s2, []) ∧
          s2.pressed_buttons = s.pressed_buttons) := by
  refine ⟨?_, ?_, ?_, ?_⟩
  · have hp := run_events_ok_pressed h
    rw [h0] at hp
    rw [hp]
    exact foldl_step_pressed_tail (evs.map Prod.snd) ∅ [] rfl
  · intro now s c
    rfl
  · intro s c hc
    exact Finset.erase_eq_of_not_mem hc
  · intro now s v
    by_cases hv : v < 120 ∨ v > 140
    · exact ⟨{ s with last_timestamp := now }, by simp [handle_event, hv], rfl⟩
    · exact ⟨s, by simp [handle_event, hv], rfl⟩

/-- C2 witness: the completed makima-chord replay satisfies the suffix
invariant at a concrete sequence. -/
theorem C2_witness :
    st_after_makima.pressed_buttons
      = held_set (tail_since_fire ∅ [] (makima_events.map Prod.snd)) :=
  (C2_amended_replay env0 st0 st_after_makima makima_events
    [Action.log "button 316 pressed", Action.log "button 314 pressed"]
    rfl rfl).1

/-- C3 counterexample: with the spawn failing, the xboxdrv-combo dispatch
raises an `OSError` that escapes the handler: the replay aborts (the third
event is never processed), the loop's `except OSError` handler runs, and the
process exits with status 0 — an action failure terminated the event loop. -/
theorem C3_counterexample :
    isOk (run_events envF st0 spawn_fail_events) = false ∧
    (main_loop envF true st0 spawn_fail_events StreamEnd.endOfStream).exitCode
      = some 0 ∧
    Action.log "Terminated by OSError."
      ∈ (main_loop envF true st0 spawn_fail_events StreamEnd.endOfStream).actions ∧
    Action.log "button 304 pressed"
      ∉ (main_loop envF true st0 spawn_fail_events StreamEnd.endOfStream).actions ∧
    (main_loop envF true st0 spawn_fail_events
        StreamEnd.endOfStream).finalState.xboxdrv_process = none := by
  refine ⟨by decide, by decide, by decide, by decide, by decide⟩

/-- C3 (amended): with a successful spawn every replay completes — an external
command's non-zero exit is discarded by `check=False` and a probe failure only
yields a wired transport, so neither can abort the loop; a failed spawn leaves
the handle untouched and is not retried, but its `OSError` escapes to the
loop's `except OSError` handler, which logs and terminates the loop with exit
status 0. -/
theorem C3_amended_failures (env : Env) :
    (env.spawnOk = true →
      ∀ (s : GState) (evs : List (ℚ × GEvent)),
        isOk (run_events env s evs) = true) ∧
    (env.spawnOk = false → ∀ s : GState, s.xboxdrv_process ≠ some true →
      toggle_xboxdrv env s
        = Except.error (s, [Action.log "Starting xboxdrv..."])) ∧
    (∀ (s : GState) (evs : List (ℚ × GEvent)) (ending : StreamEnd),
      isOk (run_events env s evs) = false →
      (main_loop env true s evs ending).exitCode = some 0 ∧
      Action.log "Terminated by OSError."
        ∈ (main_loop env true s evs ending).actions) := by
  refine ⟨?_, ?_, ?_⟩
  · intro hs s evs
    obtain ⟨s2, a, h⟩ := run_events_ok_of_spawnOk hs s evs
    rw [h]
    rfl
  · intro hs s hx
    simp [toggle_xboxdrv, hx, hs]
  · intro s evs ending hfail
    cases hre : run_events env s evs with
    | ok x =>
      rw [hre] at hfail
      simp [isOk] at hfail
    | error x =>
      obtain ⟨s1, a1⟩ := x
      constructor
      · simp [main_loop, hre]
      · simp [main_loop, hre]

/-- C3 witness: a completed replay with a good spawn, a concrete failed-spawn
toggle, and a concrete aborted loop exiting 0. -/
theorem C3_witness :
    isOk (run_events env0 st0 makima_events) = true ∧
    toggle_xboxdrv envF st0
      = Except.error (st0, [Action.log "Starting xboxdrv..."]) ∧
    ((main_loop envF true st0 spawn_fail_events StreamEnd.interrupt).exitCode
        = some 0 ∧
      Action.log "Terminated by OSError."
        ∈ (main_loop envF true st0 spawn_fail_events StreamEnd.interrupt).actions) :=
  ⟨(C3_amended_failures env0).1 rfl st0 makima_events,
   (C3_amended_failures envF).2.1 rfl st0 (by decide),
   (C3_amended_failures envF).2.2 st0 spawn_fail_events StreamEnd.interrupt
     (by decide)⟩

/-- C4 counterexample: with xboxdrv alive and the loop ended by a user
interrupt, the program exits (status 0) without killing the auxiliary process:
the handle is still live in the final state and no process-group kill was
emitted on that path. -/
theorem C4_counterexample :
    (main_loop env0 true stAlive [] StreamEnd.interrupt).finalState.xboxdrv_process
      = some true ∧
    Action.killXboxdrv
      ∉ (main_loop env0 true stAlive [] StreamEnd.interrupt).actions ∧
    exit_status (main_loop env0 true stAlive [] StreamEnd.interrupt) = 0 := by
  refine ⟨by decide, by decide, by decide⟩

/-- C4 (amended): only the `OSError` ending reaps the auxiliary process — if
xboxdrv is alive when the loop ends with a device I/O error it is
process-group-killed (the final handle is dropped) before `sys.exit(0)`; on
user interrupt and on end-of-stream the handle is left exactly as the loop
left it, so a live process survives the program's exit. -/
theorem C4_amended_termination (env : Env) (s : GState)
    (evs : List (ℚ × GEvent)) (s1 : GState) (a1 : List Action)
    (h : run_events env s evs = Except.ok (s1, a1)) :
    ((main_loop env true s evs StreamEnd.ioError).finalState.xboxdrv_process
        ≠ some true) ∧
    (s1.xboxdrv_process = some true →
      (main_loop env true s evs StreamEnd.ioError).finalState.xboxdrv_process
          = none ∧
        Action.killXboxdrv
          ∈ (main_loop env true s evs StreamEnd.ioError).actions) ∧
    ((main_loop env true s evs StreamEnd.interrupt).finalState.xboxdrv_process
      = s1.xboxdrv_process) ∧
    ((main_loop env true s evs StreamEnd.endOfStream).finalState.xboxdrv_process
      = s1.xboxdrv_process) := by
  by_cases hx : s1.xboxdrv_process = some true
  · refine ⟨?_, ?_, ?_, ?_⟩
    · simp [main_loop, h, kill_if_alive, hx]
    · intro _
      constructor
      · simp [main_loop, h, kill_if_alive, hx]
      · simp [main_loop, h, kill_if_alive, hx]
    · simp [main_loop, h]
    · simp [main_loop, h]
  · refine ⟨?_, ?_, ?_, ?_⟩
    · simp [main_loop, h, kill_if_alive, hx]
    · intro hc
      exact absurd hc hx
    · simp [main_loop, h]
    · simp [main_loop, h]

/-- C4 witness: on the I/O-error ending with a live handle, the process is
reaped before exit. -/
theorem C4_witness :
    ((main_loop env0 true stAlive [] StreamEnd.ioError).finalState.xboxdrv_process
        ≠ some true) ∧
    ((main_loop env0 true stAlive [] StreamEnd.ioError).finalState.xboxdrv_process
        = none ∧
      Action.killXboxdrv
        ∈ (main_loop env0 true stAlive [] StreamEnd.ioError).actions) := by
  have hthm := C4_amended_termination env0 stAlive [] stAlive [] rfl
  exact ⟨hthm.1, hthm.2.1 rfl⟩

/-- C5 counterexample: when opening the device fails the process does exit
with status 1 — but the startup indicator sequence has already run: the blue
lightbar push is among the emitted actions, contradicting "having performed no
indicator actions". -/
theorem C5_counterexample :
    (main_loop env0 false st0 [] StreamEnd.endOfStream).exitCode = some 1 ∧
    Action.runCmd ["dualsensectl", "-d", "aa", "lightbar", "0", "0", "255", "255"]
      ∈ (main_loop env0 false st0 [] StreamEnd.endOfStream).actions := by
  refine ⟨by decide, by decide⟩

/-- C5 (amended): a failed device open logs the error and exits with status 1
with no supervisor action and no state change — though only after the startup
indicator sequence has already run; exit status 1 arises only from the open
failure (with the device open no ending produces exit code 1); user interrupt
and device I/O error during the running loop both lead to process exit
status 0. -/
theorem C5_amended_exit (env : Env) (s : GState)
    (evs : List (ℚ × GEvent)) (ending : StreamEnd) :
    ((main_loop env false s evs ending).exitCode = some 1) ∧
    ((main_loop env false s evs ending).finalState = s) ∧
    (Action.killXboxdrv ∉ (main_loop env false s evs ending).actions) ∧
    ((main_loop env false s evs ending).actions
      = startup_actions s ++
        [Action.log ("Error: Device /dev/gamepad-" ++ s.mac ++ " not found!")]) ∧
    ((main_loop env true s evs ending).exitCode ≠ some 1) ∧
    (exit_status (main_loop env true s evs StreamEnd.interrupt) = 0) ∧
    (exit_status (main_loop env true s evs StreamEnd.ioError) = 0) := by
  refine ⟨?_, ?_, ?_, ?_, ?_, ?_, ?_⟩
  · simp [main_loop]
  · simp [main_loop]
  · simp [main_loop, killXboxdrv_not_mem_startup s]
  · simp [main_loop]
  · cases hre : run_events env s evs with
    | ok x =>
      obtain ⟨s1, a1⟩ := x
      cases ending <;> simp [main_loop, hre]
    | error x =>
      obtain ⟨s1, a1⟩ := x
      simp [main_loop, hre]
  · cases hre : run_events env s evs with
    | ok x =>
      obtain ⟨s1, a1⟩ := x
      simp [main_loop, hre, exit_status]
    | error x =>
      obtain ⟨s1, a1⟩ := x
      simp [main_loop, hre, exit_status]
  · cases hre : run_events env s evs with
    | ok x =>
      obtain ⟨s1, a1⟩ := x
      simp [main_loop, hre, exit_status]
    | error x =>
      obtain ⟨s1, a1⟩ := x
      simp [main_loop, hre, exit_status]

/-- C5 witness: the failed-open run leaves the controller state unchanged. -/
theorem C5_witness :
    (main_loop env0 false st0 [] StreamEnd.endOfStream).finalState = st0 :=
  (C5_amended_exit env0 st0 [] StreamEnd.endOfStream).2.1

end Gamepad
